import Mathlib

/-!
Verification development for the AFL-EDGE prediction engine
(src/predictor.js). The source file contains two overlapping engine
variants; they are embedded here as namespaces V1 (the file headed
"Prediction Engine v2.0 (2026 Season)") and V2 (the file headed
"Prediction Engine" with the player-prop predictor). JavaScript
numbers are modelled as exact rationals, Math.round as rounding half
toward positive infinity, and toFixed(1)/parseFloat as rounding to one
decimal with ties to the larger value, following the ECMAScript
specification of those operations on exact values.
-/

namespace AFLEdge

/-- JS Math.round: round half toward positive infinity. -/
def jround (q : ℚ) : ℤ := ⌊q + 1/2⌋

/-- JS parseFloat(x.toFixed(1)): round to one decimal place, with a tie
going to the larger value (ECMAScript toFixed picks the larger n). -/
def round1 (q : ℚ) : ℚ := (⌊q * 10 + 1/2⌋ : ℚ) / 10

/-- JS value-or-default idiom x || d on numbers: 0 is falsy. -/
def orD (x d : ℚ) : ℚ := if x = 0 then d else x

/-- One entry of a form string: win, loss or draw. -/
inductive FormRes
| W
| L
| D
deriving DecidableEq, Repr

/-- One row of the keyFactors breakdown, as built by both engines. -/
structure Factor where
  name : String
  weight : ℚ
  homeEdge : ℚ
  awayEdge : ℚ
  advantage : String
deriving DecidableEq, Repr

namespace V1

/-- Team aggregate input of the V1 engine (field set read by its
predictMatch). -/
structure TeamStats where
  code : String
  form : List FormRes
  h2hWins : ℕ
  h2hPlayed : ℕ
  venueWins : ℕ
  venuePlayed : ℕ
  scoringMargin : ℚ
  avgClearances : ℚ
  avgScore : ℚ
  avgConceded : ℚ
  travellingInterstate : Bool
deriving Repr

/-- Accumulator of the V1 calcFormScore loop: the weight of the entry at
index i is form.length - i, which is the length of the suffix starting
there; returns (score, weight). -/
def formAcc : List FormRes → ℚ × ℚ
| [] => (0, 0)
| r :: rest =>
    let w : ℚ := (r :: rest).length
    let p := formAcc rest
    (p.1 + (match r with | .W => w | .D => w / 2 | .L => 0), p.2 + w)

/-- V1 calcFormScore: recency-weighted form, most recent first with
linearly decreasing integer weights; empty input gives 0.5. -/
def calcFormScore (form : List FormRes) : ℚ :=
  if form.length = 0 then 1/2
  else
    let p := formAcc form
    if 0 < p.2 then p.1 / p.2 else 1/2

/-- V1 normalize: the edge of a against b, guarding a zero denominator
with the neutral 0.5. -/
def normalize (a b : ℚ) : ℚ :=
  if a + b = 0 then 1/2 else a / (a + b)

/-- V1 mapMargin: clamp a scoring margin to plus or minus 60 and rescale
linearly onto the unit interval. -/
def mapMargin (margin : ℚ) : ℚ :=
  (max (-60) (min 60 margin) + 60) / 120

/-- Confidence record of the V1 engine. -/
structure Conf where
  level : String
  label : String
  color : String
deriving DecidableEq, Repr

/-- One side of a V1 match prediction. -/
structure SidePrediction where
  team : TeamStats
  winProbability : ℚ
  predictedScore : ℤ
deriving Repr

/-- Output record of V1 predictMatch. -/
structure MatchPrediction where
  home : SidePrediction
  away : SidePrediction
  predictedWinner : String
  predictedMargin : ℤ
  confidence : Conf
  keyFactors : List Factor
deriving Repr

/-- V1 predictMatch: six weighted factors, probabilities normalised to
100 with the away side derived as 100 minus the home side, predicted
scores from a 60/40 attack-defence blend skewed by probability, with no
lower clamp. -/
def predictMatch (homeStats awayStats : TeamStats) (venue : String) :
    MatchPrediction :=
  let homeForm := calcFormScore homeStats.form
  let awayForm := calcFormScore awayStats.form
  let homeH2HRate : ℚ :=
    if 0 < homeStats.h2hPlayed then
      (homeStats.h2hWins : ℚ) / (homeStats.h2hPlayed : ℚ) else 1/2
  let awayH2HRate : ℚ :=
    if 0 < awayStats.h2hPlayed then
      (awayStats.h2hWins : ℚ) / (awayStats.h2hPlayed : ℚ) else 1/2
  let homeMargin := homeStats.scoringMargin
  let awayMargin := awayStats.scoringMargin
  let homeVenueRate : ℚ :=
    if 0 < homeStats.venuePlayed then
      (homeStats.venueWins : ℚ) / (homeStats.venuePlayed : ℚ) else 1/2
  let awayVenueRate : ℚ :=
    if 0 < awayStats.venuePlayed then
      (awayStats.venueWins : ℚ) / (awayStats.venuePlayed : ℚ) else 1/2
  let homeClear := orD homeStats.avgClearances 34
  let awayClear := orD awayStats.avgClearances 34
  let homeTravelPenalty : ℚ :=
    if homeStats.travellingInterstate then 0.42 else 0.58
  let awayTravelPenalty : ℚ :=
    if awayStats.travellingInterstate then 0.42 else 0.58
  let factors : List Factor :=
    [ { name := "Recent Form", weight := 0.30,
        homeEdge := normalize homeForm awayForm,
        awayEdge := normalize awayForm homeForm,
        advantage := if awayForm ≤ homeForm
          then homeStats.code else awayStats.code },
      { name := "Head to Head", weight := 0.20,
        homeEdge := normalize homeH2HRate awayH2HRate,
        awayEdge := normalize awayH2HRate homeH2HRate,
        advantage := if awayH2HRate ≤ homeH2HRate
          then homeStats.code else awayStats.code },
      { name := "Avg Score Diff", weight := 0.20,
        homeEdge := normalize (mapMargin homeMargin) (mapMargin awayMargin),
        awayEdge := normalize (mapMargin awayMargin) (mapMargin homeMargin),
        advantage := if awayMargin ≤ homeMargin
          then homeStats.code else awayStats.code },
      { name := "Venue Record", weight := 0.15,
        homeEdge := normalize homeVenueRate awayVenueRate,
        awayEdge := normalize awayVenueRate homeVenueRate,
        advantage := if awayVenueRate ≤ homeVenueRate
          then homeStats.code else awayStats.code },
      { name := "Clearance Diff", weight := 0.10,
        homeEdge := normalize homeClear awayClear,
        awayEdge := normalize awayClear homeClear,
        advantage := if awayClear ≤ homeClear
          then homeStats.code else awayStats.code },
      { name := "Interstate Travel", weight := 0.05,
        homeEdge := homeTravelPenalty,
        awayEdge := awayTravelPenalty,
        advantage := if awayTravelPenalty ≤ homeTravelPenalty
          then homeStats.code else awayStats.code } ]
  let homeProbRaw := (factors.map (fun f => f.homeEdge * f.weight)).sum
  let awayProbRaw := (factors.map (fun f => f.awayEdge * f.weight)).sum
  let total := homeProbRaw + awayProbRaw
  let homeProb := round1 (homeProbRaw / total * 100)
  let awayProb := round1 (100 - homeProb)
  let homeAvg := orD homeStats.avgScore 80
  let awayAvg := orD awayStats.avgScore 80
  let homeConceded := orD homeStats.avgConceded 80
  let awayConceded := orD awayStats.avgConceded 80
  let homePredBase := jround (homeAvg * 0.6 + awayConceded * 0.4)
  let awayPredBase := jround (awayAvg * 0.6 + homeConceded * 0.4)
  let probRatio := homeProb / 50
  let homePredScore :=
    jround ((homePredBase : ℚ) * (0.85 + probRatio * 0.15))
  let awayPredScore :=
    jround ((awayPredBase : ℚ) * (0.85 + (awayProb / 50) * 0.15))
  let maxProb := max homeProb awayProb
  let confidence : Conf :=
    if 70 ≤ maxProb then ⟨"high", "HIGH CONF", "green"⟩
    else if 58 ≤ maxProb then ⟨"medium", "MED CONF", "yellow"⟩
    else ⟨"low", "LOW CONF", "red"⟩
  { home := ⟨homeStats, homeProb, homePredScore⟩,
    away := ⟨awayStats, awayProb, awayPredScore⟩,
    predictedWinner := if awayProb ≤ homeProb
      then homeStats.code else awayStats.code,
    predictedMargin := |homePredScore - awayPredScore|,
    confidence := confidence,
    keyFactors := factors }

end V1

namespace V2

/-- Team aggregate input of the V2 engine (field set read by its
predictMatch). -/
structure TeamStats where
  code : String
  form : List FormRes
  h2hWins : ℕ
  h2hPlayed : ℕ
  venueWins : ℕ
  venuePlayed : ℕ
  avgScore : ℚ
  avgConceded : ℚ
  avgClearances : ℚ
  travellingInterstate : Bool
deriving Repr

/-- Recency weight schedule of V2 calcFormScore: the fixed list for the
first five slots and the 0.05 fallback beyond it. -/
def recencyWeight (i : ℕ) : ℚ :=
  [(0.35 : ℚ), 0.25, 0.20, 0.12, 0.08].getD i 0.05

/-- Accumulator of the V2 calcFormScore forEach: (score, totalWeight),
with i the index of the current entry. -/
def formSum : ℕ → List FormRes → ℚ × ℚ
| _, [] => (0, 0)
| i, r :: rest =>
    let w := recencyWeight i
    let p := formSum (i + 1) rest
    ((match r with | .W => (1 : ℚ) | .D => 1/2 | .L => 0) * w + p.1,
      w + p.2)

/-- V2 calcFormScore: fixed recency weight schedule over the form
string; empty input gives 0.5. -/
def calcFormScore (form : List FormRes) : ℚ :=
  if form.length = 0 then 1/2
  else (formSum 0 form).1 / (formSum 0 form).2

/-- V2 calcH2HScore: raw win rate with a neutral 0.5 when no games were
played. -/
def calcH2HScore (wins total : ℕ) : ℚ :=
  if total = 0 then 1/2 else (wins : ℚ) / (total : ℚ)

/-- V2 calcVenueScore: raw venue win rate regressed toward 0.5 by the
confidence factor min(venuePlayed / 10, 1); no games gives 0.5. -/
def calcVenueScore (venueWins venuePlayed : ℕ) : ℚ :=
  if venuePlayed = 0 then 1/2
  else
    let confidence := min ((venuePlayed : ℚ) / 10) 1
    let raw := (venueWins : ℚ) / (venuePlayed : ℚ)
    raw * confidence + 1/2 * (1 - confidence)

/-- V2 calcClearanceScore: clamp the clearance differential to plus or
minus 15 and rescale linearly onto the unit interval. -/
def calcClearanceScore (diff : ℚ) : ℚ :=
  (max (-15) (min 15 diff) + 15) / 30

/-- V2 calcTravelScore: 0.35 when only the team travels, 0.65 when only
the opponent travels, 0.5 otherwise. -/
def calcTravelScore (teamTravelling opponentTravelling : Bool) : ℚ :=
  if teamTravelling && !opponentTravelling then 0.35
  else if !teamTravelling && opponentTravelling then 0.65
  else 1/2

/-- V2 normaliseStat: clamp a value into [mn, mx] and rescale linearly
onto the unit interval. -/
def normaliseStat (value mn mx : ℚ) : ℚ :=
  (max mn (min mx value) - mn) / (mx - mn)

/-- V2 predictScore: 50/50 attack-defence blend, shifted by the win
probability lean, each side clamped below at 40 before rounding;
returns (home, away). -/
def predictScore (homeAvgScore awayAvgScore homeAvgConceded
    awayAvgConceded homeWinProb : ℚ) : ℤ × ℤ :=
  let homeBase := (homeAvgScore + awayAvgConceded) / 2
  let awayBase := (awayAvgScore + homeAvgConceded) / 2
  let leanShift := (homeWinProb - 1/2) * 20
  (jround (max 40 (homeBase + leanShift)),
    jround (max 40 (awayBase - leanShift)))

/-- Confidence tier record of the V2 engine. -/
structure Tier where
  label : String
  color : String
deriving DecidableEq, Repr

/-- V2 getConfidenceTier: thresholds 0.72 and 0.60 on the dominant-side
probability. -/
def getConfidenceTier (probability : ℚ) : Tier :=
  let p := max probability (1 - probability)
  if 0.72 ≤ p then ⟨"HIGH CONF", "green"⟩
  else if 0.60 ≤ p then ⟨"MED CONF", "yellow"⟩
  else ⟨"LOW CONF", "red"⟩

/-- One factor score pair of the V2 engine. -/
structure Pair where
  home : ℚ
  away : ℚ
deriving DecidableEq, Repr

/-- The raw factor breakdown computed at the top of V2 predictMatch. -/
structure Scores where
  recentForm : Pair
  headToHead : Pair
  avgScoreDiff : Pair
  venueRecord : Pair
  clearanceDiff : Pair
  interstateTravel : Pair
deriving DecidableEq, Repr

/-- The scores record of V2 predictMatch: each factor scorer applied to
both sides with the arguments swapped. -/
def computeScores (homeTeam awayTeam : TeamStats) : Scores :=
  { recentForm :=
      ⟨calcFormScore homeTeam.form, calcFormScore awayTeam.form⟩,
    headToHead :=
      ⟨calcH2HScore homeTeam.h2hWins homeTeam.h2hPlayed,
        calcH2HScore awayTeam.h2hWins awayTeam.h2hPlayed⟩,
    avgScoreDiff :=
      ⟨normaliseStat (homeTeam.avgScore - homeTeam.avgConceded) (-40) 40,
        normaliseStat (awayTeam.avgScore - awayTeam.avgConceded) (-40) 40⟩,
    venueRecord :=
      ⟨calcVenueScore homeTeam.venueWins homeTeam.venuePlayed,
        calcVenueScore awayTeam.venueWins awayTeam.venuePlayed⟩,
    clearanceDiff :=
      ⟨calcClearanceScore (homeTeam.avgClearances - awayTeam.avgClearances),
        calcClearanceScore (awayTeam.avgClearances - homeTeam.avgClearances)⟩,
    interstateTravel :=
      ⟨calcTravelScore homeTeam.travellingInterstate
          awayTeam.travellingInterstate,
        calcTravelScore awayTeam.travellingInterstate
          homeTeam.travellingInterstate⟩ }

/-- V2 buildKeyFactors: the six display rows; the advantage code is the
home code exactly when the home edge is strictly greater. -/
def buildKeyFactors (homeTeam awayTeam : TeamStats) (scores : Scores) :
    List Factor :=
  [ { name := "Recent Form (Last 5)",
      homeEdge := scores.recentForm.home,
      awayEdge := scores.recentForm.away,
      weight := 0.30,
      advantage := if scores.recentForm.away < scores.recentForm.home
        then homeTeam.code else awayTeam.code },
    { name := "Head to Head Record",
      homeEdge := scores.headToHead.home,
      awayEdge := scores.headToHead.away,
      weight := 0.20,
      advantage := if scores.headToHead.away < scores.headToHead.home
        then homeTeam.code else awayTeam.code },
    { name := "Scoring Margin",
      homeEdge := scores.avgScoreDiff.home,
      awayEdge := scores.avgScoreDiff.away,
      weight := 0.20,
      advantage := if scores.avgScoreDiff.away < scores.avgScoreDiff.home
        then homeTeam.code else awayTeam.code },
    { name := "Venue Record",
      homeEdge := scores.venueRecord.home,
      awayEdge := scores.venueRecord.away,
      weight := 0.15,
      advantage := if scores.venueRecord.away < scores.venueRecord.home
        then homeTeam.code else awayTeam.code },
    { name := "Clearance Differential",
      homeEdge := scores.clearanceDiff.home,
      awayEdge := scores.clearanceDiff.away,
      weight := 0.10,
      advantage := if scores.clearanceDiff.away < scores.clearanceDiff.home
        then homeTeam.code else awayTeam.code },
    { name := "Interstate Travel",
      homeEdge := scores.interstateTravel.home,
      awayEdge := scores.interstateTravel.away,
      weight := 0.05,
      advantage :=
        if scores.interstateTravel.away < scores.interstateTravel.home
        then homeTeam.code else awayTeam.code } ]

/-- One side of a V2 match prediction. -/
structure SidePrediction where
  team : TeamStats
  winProbability : ℚ
  predictedScore : ℤ
deriving Repr

/-- Output record of V2 predictMatch. -/
structure MatchPrediction where
  home : SidePrediction
  away : SidePrediction
  venue : String
  confidence : Tier
  keyFactors : List Factor
  scores : Scores
  predictedMargin : ℤ
  predictedWinner : String
deriving Repr

/-- V2 predictMatch: weighted composite of the six factor scores,
normalised to a probability, with both percentages rounded to one
decimal independently. -/
def predictMatch (homeTeam awayTeam : TeamStats) (venue : String) :
    MatchPrediction :=
  let scores := computeScores homeTeam awayTeam
  let homeTotal :=
    scores.recentForm.home * 0.30 + scores.headToHead.home * 0.20 +
      scores.avgScoreDiff.home * 0.20 + scores.venueRecord.home * 0.15 +
      scores.clearanceDiff.home * 0.10 + scores.interstateTravel.home * 0.05
  let awayTotal :=
    scores.recentForm.away * 0.30 + scores.headToHead.away * 0.20 +
      scores.avgScoreDiff.away * 0.20 + scores.venueRecord.away * 0.15 +
      scores.clearanceDiff.away * 0.10 + scores.interstateTravel.away * 0.05
  let homeWinProb := homeTotal / (homeTotal + awayTotal)
  let awayWinProb := 1 - homeWinProb
  let predicted := predictScore homeTeam.avgScore awayTeam.avgScore
    homeTeam.avgConceded awayTeam.avgConceded homeWinProb
  { home := ⟨homeTeam, round1 (homeWinProb * 100), predicted.1⟩,
    away := ⟨awayTeam, round1 (awayWinProb * 100), predicted.2⟩,
    venue := venue,
    confidence := getConfidenceTier homeWinProb,
    keyFactors := buildKeyFactors homeTeam awayTeam scores,
    scores := scores,
    predictedMargin := |predicted.1 - predicted.2|,
    predictedWinner := if 1/2 ≤ homeWinProb
      then homeTeam.code else awayTeam.code }

/-- Player input of predictPlayerStat: the stat history map is modelled
as a total function, a missing stat code mapping to the empty list
exactly as the optional-chaining fallback in the source does. -/
structure Player where
  fullname : String
  code : String
  statHistory : String → List ℚ

/-- Opponent squad input of predictPlayerStat: the per-stat conceded
average, absent when the source map has no entry. -/
structure Opponent where
  avgStatConceded : String → Option ℚ

/-- Output record of predictPlayerStat. -/
structure PropPrediction where
  player : String
  code : String
  statCode : String
  predicted : ℚ
  weightedAvg : ℚ
  seasonAvg : ℚ
  confidence : String
  last5 : List ℚ
  trendDirection : String
deriving DecidableEq, Repr

/-- The weightedSum accumulator of predictPlayerStat, with i the index
of the current entry in the recent window. -/
def weightedSumFrom : ℕ → List ℚ → ℚ
| _, [] => 0
| i, x :: xs => x * recencyWeight i + weightedSumFrom (i + 1) xs

/-- The totalW accumulator of predictPlayerStat. -/
def totalWFrom : ℕ → List ℚ → ℚ
| _, [] => 0
| i, _ :: xs => recencyWeight i + totalWFrom (i + 1) xs

/-- The weighted recent average of predictPlayerStat over an already
truncated window. -/
def weightedAvgOf (window : List ℚ) : ℚ :=
  weightedSumFrom 0 window / totalWFrom 0 window

/-- The opponent defensive adjustment of predictPlayerStat: a present
truthy conceded figure is divided by the league baseline 25, while an
absent or zero (falsy) figure yields the neutral 1. -/
def defAdjOf (conceded : Option ℚ) : ℚ :=
  match conceded with
  | some c => if c = 0 then 1 else c / 25
  | none => 1

/-- The raw predicted value of predictPlayerStat before display
rounding. -/
def rawPredicted (window : List ℚ) (conceded : Option ℚ) : ℚ :=
  weightedAvgOf window * (0.85 + defAdjOf conceded * 0.15)

/-- The source stdDev helper computes the population standard deviation
with a guard returning 0 for fewer than two values. Since the square
root leaves the rationals, this embedding carries the squared value
(the population variance, with the same guard); the confidence
comparisons stdDev < 4 and stdDev < 8 of the source are performed below
on the square against 16 and 64, which is equivalent because the
standard deviation is the nonnegative square root and both thresholds
are nonnegative. -/
def stdDevSq (arr : List ℚ) : ℚ :=
  if arr.length < 2 then 0
  else
    let mean := arr.sum / (arr.length : ℚ)
    ((arr.map (fun v => (v - mean) ^ 2)).sum) / (arr.length : ℚ)

/-- V2 predictPlayerStat: none exactly when the stat history is empty;
otherwise the weighted recent average adjusted by the opponent
defensive factor, with variance-based confidence and trend direction. -/
def predictPlayerStat (player : Player) (opponent : Opponent)
    (statCode : String) : Option PropPrediction :=
  let history := player.statHistory statCode
  if history.length = 0 then none
  else
    let window := history.take 5
    let weightedAvg := weightedAvgOf window
    let seasonAvg := history.sum / (history.length : ℚ)
    let predicted :=
      rawPredicted window (opponent.avgStatConceded statCode)
    let varSq := stdDevSq window
    let confidence :=
      if varSq < 16 then "HIGH" else if varSq < 64 then "MED" else "LOW"
    some
      { player := player.fullname,
        code := player.code,
        statCode := statCode,
        predicted := round1 predicted,
        weightedAvg := round1 weightedAvg,
        seasonAvg := round1 seasonAvg,
        confidence := confidence,
        last5 := window,
        trendDirection :=
          if seasonAvg < history.headD 0 then "up"
          else if history.headD 0 < seasonAvg then "down" else "flat" }

end V2

-- ── Helper lemmas ──────────────────────────────────────────────────────────

/-- Adding one half to an integer leaves its floor unchanged. -/
theorem floor_intCast_add_half (z : ℤ) : ⌊(z : ℚ) + 1/2⌋ = z := by
  rw [add_comm, Int.floor_add_int]
  norm_num

/-- Rounding a value of the form 100 minus an already rounded value to
one decimal is the identity, so the two V1 percentages sum to 100. -/
theorem round1_compl (q : ℚ) : round1 q + round1 (100 - round1 q) = 100 := by
  unfold round1
  have h1 : (100 - (⌊q * 10 + 1/2⌋ : ℚ) / 10) * 10 + 1/2
      = ((1000 - ⌊q * 10 + 1/2⌋ : ℤ) : ℚ) + 1/2 := by
    push_cast
    ring
  rw [h1, floor_intCast_add_half]
  push_cast
  ring

/-- Rounding after the clamp of V2 predictScore keeps the result at or
above 40. -/
theorem jround_max40 (x : ℚ) : (40 : ℤ) ≤ jround (max 40 x) := by
  unfold jround
  have h : ((40 : ℚ) + 1/2) ≤ max 40 x + 1/2 := by
    have := le_max_left (40 : ℚ) x
    linarith
  calc (40 : ℤ) = ⌊(40 : ℚ) + 1/2⌋ := by norm_num
    _ ≤ ⌊max 40 x + 1/2⌋ := Int.floor_le_floor h

/-- Every recency weight of the V2 schedule is positive. -/
theorem recencyWeight_pos (i : ℕ) : 0 < V2.recencyWeight i := by
  rcases i with _ | _ | _ | _ | _ | n <;>
    simp [V2.recencyWeight, List.getD] <;> norm_num

/-- The weighted sum accumulator is nonnegative on nonnegative data. -/
theorem weightedSumFrom_nonneg (l : List ℚ) :
    ∀ i, (∀ x ∈ l, 0 ≤ x) → 0 ≤ V2.weightedSumFrom i l := by
  induction l with
  | nil => intro i _; simp [V2.weightedSumFrom]
  | cons x xs ih =>
      intro i h
      have hx : 0 ≤ x := h x (List.mem_cons_self x xs)
      have hxs : 0 ≤ V2.weightedSumFrom (i + 1) xs :=
        ih (i + 1) (fun y hy => h y (List.mem_cons_of_mem x hy))
      have hw : 0 ≤ V2.recencyWeight i := (recencyWeight_pos i).le
      simp only [V2.weightedSumFrom]
      have := mul_nonneg hx hw
      linarith

/-- The total weight accumulator is nonnegative. -/
theorem totalWFrom_nonneg (l : List ℚ) :
    ∀ i, 0 ≤ V2.totalWFrom i l := by
  induction l with
  | nil => intro i; simp [V2.totalWFrom]
  | cons x xs ih =>
      intro i
      have := ih (i + 1)
      have hw := (recencyWeight_pos i).le
      simp only [V2.totalWFrom]
      linarith

/-- The weighted recent average is nonnegative on nonnegative data. -/
theorem weightedAvgOf_nonneg (l : List ℚ) (h : ∀ x ∈ l, 0 ≤ x) :
    0 ≤ V2.weightedAvgOf l := by
  unfold V2.weightedAvgOf
  exact div_nonneg (weightedSumFrom_nonneg l 0 h) (totalWFrom_nonneg l 0)

/-- The regressed venue score, written out for a nonzero sample. -/
theorem calcVenueScore_pos_eq (w p : ℕ) (hp : p ≠ 0) :
    V2.calcVenueScore w p =
      ((w : ℚ) / p) * min ((p : ℚ) / 10) 1 +
        1/2 * (1 - min ((p : ℚ) / 10) 1) := by
  unfold V2.calcVenueScore
  rw [if_neg hp]

-- ── Concrete inputs used by counterexamples and witnesses ─────────────────

/-- Home side of the C1 counterexample: every factor at its floor. -/
def htC1 : V2.TeamStats :=
  { code := "HOM", form := [.L, .L, .L, .L, .L], h2hWins := 0,
    h2hPlayed := 10, venueWins := 0, venuePlayed := 10, avgScore := 60,
    avgConceded := 100, avgClearances := 20, travellingInterstate := false }

/-- Away side of the C1 counterexample: composite total fifteen times the
home total, so the home share is exactly one sixteenth. -/
def atC1 : V2.TeamStats :=
  { code := "AWY", form := [.L, .L, .L, .L, .L], h2hWins := 10,
    h2hPlayed := 10, venueWins := 4, venuePlayed := 12, avgScore := 60,
    avgConceded := 100, avgClearances := 35, travellingInterstate := false }

/-- Home side of the C2 counterexample: tiny scoring averages. -/
def htC2 : V1.TeamStats :=
  { code := "HOM", form := [], h2hWins := 0, h2hPlayed := 0,
    venueWins := 0, venuePlayed := 0, scoringMargin := 0,
    avgClearances := 34, avgScore := 1, avgConceded := 1,
    travellingInterstate := false }

/-- Away side of the C2 counterexample. -/
def atC2 : V1.TeamStats :=
  { code := "AWY", form := [], h2hWins := 0, h2hPlayed := 0,
    venueWins := 0, venuePlayed := 0, scoringMargin := 0,
    avgClearances := 34, avgScore := 1, avgConceded := 1,
    travellingInterstate := false }

/-- Home side of the C3 counterexample: a 2-for-2 venue record, a small
sample the claim says must be shrunk toward 0.5. -/
def htC3 : V1.TeamStats :=
  { code := "HOM", form := [], h2hWins := 0, h2hPlayed := 0,
    venueWins := 2, venuePlayed := 2, scoringMargin := 0,
    avgClearances := 34, avgScore := 80, avgConceded := 80,
    travellingInterstate := false }

/-- Away side of the C3 counterexample: no venue games, so its venue
rate is the neutral 0.5. -/
def awC3 : V1.TeamStats :=
  { code := "AWY", form := [], h2hWins := 0, h2hPlayed := 0,
    venueWins := 0, venuePlayed := 0, scoringMargin := 0,
    avgClearances := 34, avgScore := 80, avgConceded := 80,
    travellingInterstate := false }

/-- Home side of the C4 counterexample: travelling interstate. -/
def htC4 : V1.TeamStats :=
  { code := "HOM", form := [], h2hWins := 0, h2hPlayed := 0,
    venueWins := 0, venuePlayed := 0, scoringMargin := 0,
    avgClearances := 34, avgScore := 80, avgConceded := 80,
    travellingInterstate := true }

/-- Away side of the C4 counterexample: also travelling interstate. -/
def awC4 : V1.TeamStats :=
  { code := "AWY", form := [], h2hWins := 0, h2hPlayed := 0,
    venueWins := 0, venuePlayed := 0, scoringMargin := 0,
    avgClearances := 34, avgScore := 80, avgConceded := 80,
    travellingInterstate := true }

/-- Player of the C6 counterexample: a single observation of 25. -/
def pC6 : V2.Player :=
  { fullname := "P", code := "P1", statHistory := fun _ => [25] }

/-- Opponent of the C6 counterexample: concedes 100 of the stat on
average, four times the league baseline. -/
def oC6 : V2.Opponent := { avgStatConceded := fun _ => some 100 }

/-- Home team of the C9 input. -/
def htC9 : V2.TeamStats :=
  { code := "HOM", form := [], h2hWins := 0, h2hPlayed := 0,
    venueWins := 0, venuePlayed := 0, avgScore := 80, avgConceded := 80,
    avgClearances := 34, travellingInterstate := false }

/-- Away team of the C9 input. -/
def awC9 : V2.TeamStats :=
  { code := "AWY", form := [], h2hWins := 0, h2hPlayed := 0,
    venueWins := 0, venuePlayed := 0, avgScore := 80, avgConceded := 80,
    avgClearances := 34, travellingInterstate := false }

/-- Scores record of the C9 counterexample: the travel factor is tied. -/
def scC9 : V2.Scores :=
  { recentForm := ⟨1, 0⟩, headToHead := ⟨1, 0⟩, avgScoreDiff := ⟨1, 0⟩,
    venueRecord := ⟨1, 0⟩, clearanceDiff := ⟨1, 0⟩,
    interstateTravel := ⟨1/2, 1/2⟩ }

/-- Default row used to index into the keyFactors list. -/
def dfltFactor : Factor :=
  { name := "", weight := 0, homeEdge := 0, awayEdge := 0, advantage := "" }

/-- Player of the C10 witness. -/
def pC10 : V2.Player :=
  { fullname := "W", code := "W1", statHistory := fun _ => [7] }

/-- Opponent of the C10 witness: no defensive data at all. -/
def oC10 : V2.Opponent := { avgStatConceded := fun _ => none }

-- ── Claims ─────────────────────────────────────────────────────────────────

/-- C1, counterexample: the V2 predictMatch rounds both percentages
independently, and at an input whose composite home share is exactly one
sixteenth the displayed probabilities are 6.3 and 93.8, which sum to
100.1, refuting the claim that the sum is always exactly 100 with the
away side derived as 100 minus the home side. -/
theorem C1_v2_sum_not_100_counterexample :
    (V2.predictMatch htC1 atC1 "MCG").home.winProbability = 63/10 ∧
    (V2.predictMatch htC1 atC1 "MCG").away.winProbability = 469/5 ∧
    (V2.predictMatch htC1 atC1 "MCG").home.winProbability +
      (V2.predictMatch htC1 atC1 "MCG").away.winProbability ≠ 100 := by
  refine ⟨?_, ?_, ?_⟩ <;>
  norm_num [V2.predictMatch, V2.computeScores, V2.calcFormScore, V2.formSum,
    V2.recencyWeight, V2.calcH2HScore, V2.calcVenueScore,
    V2.calcClearanceScore, V2.calcTravelScore, V2.normaliseStat,
    V2.predictScore, round1, jround, htC1, atC1]

/-- C1, amended: in the V1 predictMatch the away percentage is derived
as 100 minus the already rounded home percentage, so for every pair of
team aggregate inputs the two win probabilities sum to exactly 100. -/
theorem C1_v1_probabilities_sum_to_100
    (homeStats awayStats : V1.TeamStats) (venue : String) :
    (V1.predictMatch homeStats awayStats venue).home.winProbability +
      (V1.predictMatch homeStats awayStats venue).away.winProbability
      = 100 :=
  round1_compl _

/-- C2, counterexample: the V1 predictMatch has no lower clamp on the
predicted scores, and with scoring averages of 1 point it predicts a
final score of 1 for each side, far below 40. -/
theorem C2_v1_score_below_40_counterexample :
    (V1.predictMatch htC2 atC2 "MCG").home.predictedScore = 1 ∧
    (V1.predictMatch htC2 atC2 "MCG").away.predictedScore = 1 ∧
    (V1.predictMatch htC2 atC2 "MCG").home.predictedScore < 40 := by
  refine ⟨?_, ?_, ?_⟩ <;>
  norm_num [V1.predictMatch, V1.calcFormScore, V1.normalize, V1.mapMargin,
    V1.formAcc, orD, round1, jround, htC2, atC2,
    List.map_cons, List.map_nil, List.sum_cons, List.sum_nil]

/-- C2, amended: in the V2 engine the claim holds — predictScore clamps
each side at the floor of 40 before rounding, so every V2 match
prediction carries predicted scores of at least 40 on both sides no
matter how extreme the inputs are. -/
theorem C2_v2_scores_at_least_40 :
    (∀ a b c d p : ℚ, 40 ≤ (V2.predictScore a b c d p).1 ∧
      40 ≤ (V2.predictScore a b c d p).2) ∧
    ∀ (homeTeam awayTeam : V2.TeamStats) (venue : String),
      40 ≤ (V2.predictMatch homeTeam awayTeam venue).home.predictedScore ∧
      40 ≤ (V2.predictMatch homeTeam awayTeam venue).away.predictedScore :=
  ⟨fun _ _ _ _ _ => ⟨jround_max40 _, jround_max40 _⟩,
    fun _ _ _ => ⟨jround_max40 _, jround_max40 _⟩⟩

/-- C3, counterexample: the V1 predictMatch venue factor uses the raw
rate with no regression — a 2-for-2 venue record enters as the extreme
rate 1.0, giving the venue row the home edge 2/3 against a neutral
opponent, whereas the claimed shrunk rate for a 2-game sample is
calcVenueScore 2 2 = 0.6, whose edge against the same opponent would be
6/11, a different value. -/
theorem C3_v1_raw_venue_rate_counterexample :
    ((V1.predictMatch htC3 awC3 "MCG").keyFactors.getD 3
      dfltFactor).homeEdge = 2/3 ∧
    V2.calcVenueScore 2 2 = 3/5 ∧
    V1.normalize (V2.calcVenueScore 2 2) (1/2) = 6/11 ∧
    (2 : ℚ)/3 ≠ 6/11 := by
  refine ⟨?_, ?_, ?_, by norm_num⟩ <;>
  norm_num [V1.predictMatch, V1.calcFormScore, V1.normalize, V1.mapMargin,
    V1.formAcc, V2.calcVenueScore, orD, round1, jround, htC3, awC3,
    List.getD, List.map_cons, List.map_nil, List.sum_cons, List.sum_nil]

/-- C3, amended: the V2 venue scorer calcVenueScore is the raw rate
regressed toward 0.5 by the confidence factor min(played / 10, 1);
whenever wins is at most played it equals the raw rate once at least 10
games were played, and its distance from 0.5 is at most played / 20, so
it tends to the neutral 0.5 as the sample size tends to 0. The V1
predictMatch venue factor applies no such regression. -/
theorem C3_venue_score_regression (w p : ℕ) (hwp : w ≤ p) :
    (p ≠ 0 → V2.calcVenueScore w p =
      ((w : ℚ) / p) * min ((p : ℚ) / 10) 1 +
        1/2 * (1 - min ((p : ℚ) / 10) 1)) ∧
    (10 ≤ p → V2.calcVenueScore w p = (w : ℚ) / p) ∧
    |V2.calcVenueScore w p - 1/2| ≤ (p : ℚ) / 20 := by
  by_cases hp : p = 0
  · subst hp
    refine ⟨fun h => absurd rfl h, fun h => absurd h (by norm_num), ?_⟩
    simp [V2.calcVenueScore]
  · have hp0 : 0 < p := Nat.pos_of_ne_zero hp
    have hpq : (0 : ℚ) < p := by exact_mod_cast hp0
    have heq := calcVenueScore_pos_eq w p hp
    have hr0 : 0 ≤ (w : ℚ) / p :=
      div_nonneg (Nat.cast_nonneg w) hpq.le
    have hr1 : (w : ℚ) / p ≤ 1 := by
      rw [div_le_one hpq]
      exact_mod_cast hwp
    have hc0 : 0 ≤ min ((p : ℚ) / 10) 1 :=
      le_min (by positivity) (by norm_num)
    have hcp : min ((p : ℚ) / 10) 1 ≤ (p : ℚ) / 10 := min_le_left _ _
    refine ⟨fun _ => heq, ?_, ?_⟩
    · intro h10
      have h10q : (10 : ℚ) ≤ p := by exact_mod_cast h10
      have hcc : min ((p : ℚ) / 10) 1 = 1 := by
        apply min_eq_right
        rw [le_div_iff₀ (by norm_num : (0 : ℚ) < 10)]
        linarith
      rw [heq, hcc]
      ring
    · rw [heq, abs_le]
      have h1 : 0 ≤ ((w : ℚ) / p) * min ((p : ℚ) / 10) 1 :=
        mul_nonneg hr0 hc0
      have h2 : ((w : ℚ) / p) * min ((p : ℚ) / 10) 1 ≤
          min ((p : ℚ) / 10) 1 :=
        mul_le_of_le_one_left hc0 hr1
      constructor <;> linarith

/-- C3, witness: at 3 wins from 10 venue games the score is the raw
rate 0.3, within the regression bound. -/
theorem C3_venue_score_regression_witness :
    V2.calcVenueScore 3 10 = (3 : ℚ) / 10 ∧
    |V2.calcVenueScore 3 10 - 1/2| ≤ (10 : ℚ) / 20 :=
  ⟨((C3_venue_score_regression 3 10 (by norm_num)).2.1 (by norm_num)).trans
      (by norm_num),
    (C3_venue_score_regression 3 10 (by norm_num)).2.2⟩

/-- C4, counterexample: the V1 predictMatch travel factor sets each edge
from that team's own flag alone, so with both teams travelling the
travel row carries 0.42 on both sides instead of the claimed exact
neutral 0.5. -/
theorem C4_v1_both_travelling_counterexample :
    ((V1.predictMatch htC4 awC4 "MCG").keyFactors.getD 5
      dfltFactor).homeEdge = 21/50 ∧
    ((V1.predictMatch htC4 awC4 "MCG").keyFactors.getD 5
      dfltFactor).awayEdge = 21/50 ∧
    ((21 : ℚ)/50 ≠ 1/2) := by
  refine ⟨?_, ?_, by norm_num⟩ <;>
  norm_num [V1.predictMatch, V1.calcFormScore, V1.normalize, V1.mapMargin,
    V1.formAcc, orD, round1, jround, htC4, awC4, List.getD,
    List.map_cons, List.map_nil, List.sum_cons, List.sum_nil]

/-- C4, amended: for every pair of travel flags, the two-flag V2 travel
scorer calcTravelScore gives 0.35 (inside the 0.35 to 0.42 band) to a
travelling team whose opponent is at home, 0.65 (inside the 0.58 to
0.65 band) to a home team whose opponent travels, and exactly the
neutral 0.5 when both or neither travel. The V1 predictMatch travel
factor reads each flag alone and is 0.42/0.42 or 0.58/0.58 in the tied
cases. -/
theorem C4_travel_score_bands (t o : Bool) :
    ((t = true ∧ o = false) → 7/20 ≤ V2.calcTravelScore t o ∧
      V2.calcTravelScore t o ≤ 21/50) ∧
    ((t = false ∧ o = true) → 29/50 ≤ V2.calcTravelScore t o ∧
      V2.calcTravelScore t o ≤ 13/20) ∧
    (t = o → V2.calcTravelScore t o = 1/2) := by
  cases t <;> cases o <;>
    refine ⟨?_, ?_, ?_⟩ <;>
    simp [V2.calcTravelScore] <;> norm_num

/-- C4, witness: the travelling-versus-home case lies in its band. -/
theorem C4_travel_score_bands_witness :
    7/20 ≤ V2.calcTravelScore true false ∧
    V2.calcTravelScore true false ≤ 21/50 :=
  (C4_travel_score_bands true false).1 ⟨rfl, rfl⟩

/-- C5: the player prop predictor returns none exactly when the stat
history for the requested code is empty; any other input, including one
with no opponent defensive data, yields a prediction record. -/
theorem C5_player_prop_none_iff_empty_history
    (player : V2.Player) (opponent : V2.Opponent) (statCode : String) :
    V2.predictPlayerStat player opponent statCode = none ↔
      player.statHistory statCode = [] := by
  rcases h : player.statHistory statCode with _ | ⟨x, xs⟩ <;>
    simp [V2.predictPlayerStat, h]

/-- C6, counterexample: with a single observation of 25 and an opponent
conceding 100 of the stat, the adjustment factor is 4 and the predicted
value 36.3 exceeds 1.15 times the weighted average 25, refuting the
claim for arbitrary nonnegative conceded figures. -/
theorem C6_adjustment_exceeds_band_counterexample :
    ((V2.predictPlayerStat pC6 oC6 "DISPOSAL").map
      (fun r => r.predicted)).getD 0 = 363/10 ∧
    ((V2.predictPlayerStat pC6 oC6 "DISPOSAL").map
      (fun r => r.weightedAvg)).getD 0 = 25 ∧
    ¬((363 : ℚ)/10 ≤ 115/100 * 25) := by
  refine ⟨?_, ?_, by norm_num⟩ <;>
  norm_num [V2.predictPlayerStat, V2.rawPredicted, V2.weightedAvgOf,
    V2.defAdjOf, V2.weightedSumFrom, V2.totalWFrom, V2.recencyWeight,
    V2.stdDevSq, round1, pC6, oC6]

/-- C6, amended: the predicted value lies within 15 percent either side
of the recency-weighted average provided the nonnegative conceded
figure is at most 50 (twice the baseline 25), the history being
nonempty with nonnegative observations; larger conceded figures scale
the prediction beyond the band. -/
theorem C6_predicted_within_band_for_bounded_conceded
    (l : List ℚ) (c : ℚ) (hl : l ≠ []) (hpos : ∀ x ∈ l, 0 ≤ x)
    (hc0 : 0 ≤ c) (hc50 : c ≤ 50) :
    85/100 * V2.weightedAvgOf (l.take 5) ≤
      V2.rawPredicted (l.take 5) (some c) ∧
    V2.rawPredicted (l.take 5) (some c) ≤
      115/100 * V2.weightedAvgOf (l.take 5) := by
  have hw : 0 ≤ V2.weightedAvgOf (l.take 5) :=
    weightedAvgOf_nonneg _ (fun x hx => hpos x (List.take_subset 5 l hx))
  have hadj0 : 0 ≤ V2.defAdjOf (some c) := by
    simp only [V2.defAdjOf]
    split_ifs
    · norm_num
    · positivity
  have hadj2 : V2.defAdjOf (some c) ≤ 2 := by
    simp only [V2.defAdjOf]
    split_ifs
    · norm_num
    · rw [div_le_iff₀ (by norm_num : (0:ℚ) < 25)]
      linarith
  unfold V2.rawPredicted
  constructor
  · nlinarith [mul_nonneg hw hadj0]
  · nlinarith [mul_nonneg hw (by linarith : (0:ℚ) ≤ 2 - V2.defAdjOf (some c))]

/-- C6, witness: a single observation of 10 against a baseline conceded
figure of 25 keeps the raw prediction inside the band. -/
theorem C6_predicted_within_band_witness :
    85/100 * V2.weightedAvgOf (([10] : List ℚ).take 5) ≤
      V2.rawPredicted (([10] : List ℚ).take 5) (some 25) ∧
    V2.rawPredicted (([10] : List ℚ).take 5) (some 25) ≤
      115/100 * V2.weightedAvgOf (([10] : List ℚ).take 5) :=
  C6_predicted_within_band_for_bounded_conceded [10] 25 (by simp)
    (by intro x hx; rw [List.mem_singleton] at hx; subst hx; norm_num)
    (by norm_num) (by norm_num)

/-- C7: the cited ratio computations are guarded against division by
zero by the neutral 0.5 — the head-to-head rate with no games played is
0.5 for any wins value, and normalising a against b is 0.5 whenever
a + b = 0. -/
theorem C7_division_guards :
    (∀ wins : ℕ, V2.calcH2HScore wins 0 = 1/2) ∧
    ∀ a b : ℚ, a + b = 0 → V1.normalize a b = 1/2 := by
  constructor
  · intro wins
    simp [V2.calcH2HScore]
  · intro a b h
    simp [V1.normalize, h]

/-- C7, witness: 7 head-to-head wins from 0 games give the neutral rate,
and normalising 5 against -5 gives the neutral edge. -/
theorem C7_division_guards_witness :
    V2.calcH2HScore 7 0 = 1/2 ∧ V1.normalize 5 (-5) = 1/2 :=
  ⟨C7_division_guards.1 7, C7_division_guards.2 5 (-5) (by norm_num)⟩

/-- C8: each margin-style scorer — the V1 scoring-margin map with bound
60, the V2 clearance-differential map with bound 15, and the V2
scoring-margin normalisation with bounds -40 and 40 — is monotonically
non-decreasing and saturates exactly at its clamp bounds, returning 0 at
and below the lower bound and 1 at and above the upper bound. -/
theorem C8_margin_scorers_monotone_saturating :
    (∀ x y : ℚ, x ≤ y → V1.mapMargin x ≤ V1.mapMargin y) ∧
    (∀ x : ℚ, x ≤ -60 → V1.mapMargin x = 0) ∧
    (∀ x : ℚ, 60 ≤ x → V1.mapMargin x = 1) ∧
    (∀ x y : ℚ, x ≤ y →
      V2.calcClearanceScore x ≤ V2.calcClearanceScore y) ∧
    (∀ x : ℚ, x ≤ -15 → V2.calcClearanceScore x = 0) ∧
    (∀ x : ℚ, 15 ≤ x → V2.calcClearanceScore x = 1) ∧
    (∀ x y : ℚ, x ≤ y →
      V2.normaliseStat x (-40) 40 ≤ V2.normaliseStat y (-40) 40) ∧
    (∀ x : ℚ, x ≤ -40 → V2.normaliseStat x (-40) 40 = 0) ∧
    (∀ x : ℚ, 40 ≤ x → V2.normaliseStat x (-40) 40 = 1) := by
  refine ⟨?_, ?_, ?_, ?_, ?_, ?_, ?_, ?_, ?_⟩
  · intro x y h
    unfold V1.mapMargin
    have h1 : max (-60 : ℚ) (min 60 x) ≤ max (-60) (min 60 y) :=
      max_le_max le_rfl (min_le_min le_rfl h)
    linarith
  · intro x hx
    unfold V1.mapMargin
    rw [min_eq_right (by linarith : x ≤ 60),
      max_eq_left (by linarith : x ≤ -60)]
    norm_num
  · intro x hx
    unfold V1.mapMargin
    rw [min_eq_left (by linarith : (60 : ℚ) ≤ x)]
    norm_num
  · intro x y h
    unfold V2.calcClearanceScore
    have h1 : max (-15 : ℚ) (min 15 x) ≤ max (-15) (min 15 y) :=
      max_le_max le_rfl (min_le_min le_rfl h)
    linarith
  · intro x hx
    unfold V2.calcClearanceScore
    rw [min_eq_right (by linarith : x ≤ 15),
      max_eq_left (by linarith : x ≤ -15)]
    norm_num
  · intro x hx
    unfold V2.calcClearanceScore
    rw [min_eq_left (by linarith : (15 : ℚ) ≤ x)]
    norm_num
  · intro x y h
    unfold V2.normaliseStat
    have h1 : max (-40 : ℚ) (min 40 x) ≤ max (-40) (min 40 y) :=
      max_le_max le_rfl (min_le_min le_rfl h)
    rw [show ((40 : ℚ) - -40) = 80 by norm_num]
    linarith
  · intro x hx
    unfold V2.normaliseStat
    rw [min_eq_right (by linarith : x ≤ 40),
      max_eq_left (by linarith : x ≤ -40)]
    norm_num
  · intro x hx
    unfold V2.normaliseStat
    rw [min_eq_left (by linarith : (40 : ℚ) ≤ x)]
    norm_num

/-- C8, witness: instances of monotonicity and saturation for the three
scorers at concrete margins. -/
theorem C8_margin_scorers_witness :
    V1.mapMargin 0 ≤ V1.mapMargin 5 ∧
    V1.mapMargin (-70) = 0 ∧ V1.mapMargin 60 = 1 ∧
    V2.calcClearanceScore 0 ≤ V2.calcClearanceScore 3 ∧
    V2.calcClearanceScore (-15) = 0 ∧ V2.calcClearanceScore 20 = 1 ∧
    V2.normaliseStat 0 (-40) 40 ≤ V2.normaliseStat 1 (-40) 40 ∧
    V2.normaliseStat (-40) (-40) 40 = 0 ∧
    V2.normaliseStat 44 (-40) 40 = 1 :=
  ⟨C8_margin_scorers_monotone_saturating.1 0 5 (by norm_num),
    C8_margin_scorers_monotone_saturating.2.1 (-70) (by norm_num),
    C8_margin_scorers_monotone_saturating.2.2.1 60 le_rfl,
    C8_margin_scorers_monotone_saturating.2.2.2.1 0 3 (by norm_num),
    C8_margin_scorers_monotone_saturating.2.2.2.2.1 (-15) le_rfl,
    C8_margin_scorers_monotone_saturating.2.2.2.2.2.1 20 (by norm_num),
    C8_margin_scorers_monotone_saturating.2.2.2.2.2.2.1 0 1 (by norm_num),
    C8_margin_scorers_monotone_saturating.2.2.2.2.2.2.2.1 (-40) le_rfl,
    C8_margin_scorers_monotone_saturating.2.2.2.2.2.2.2.2 44 (by norm_num)⟩

/-- C9, counterexample: in buildKeyFactors a tie breaks to the away
team — with both travel edges at 0.5 the travel row records the away
code, refuting the claim that ties break to home. -/
theorem C9_tie_breaks_to_away_counterexample :
    ((V2.buildKeyFactors htC9 awC9 scC9).getD 5 dfltFactor).homeEdge =
      ((V2.buildKeyFactors htC9 awC9 scC9).getD 5 dfltFactor).awayEdge ∧
    ((V2.buildKeyFactors htC9 awC9 scC9).getD 5 dfltFactor).advantage
      = "AWY" ∧
    htC9.code = "HOM" := by
  refine ⟨?_, ?_, rfl⟩ <;>
  norm_num [V2.buildKeyFactors, scC9, htC9, awC9, List.getD]

/-- C9, amended: for each of the six factors in the keyFactors
breakdown, the recorded advantage code is the home code exactly when the
home edge is strictly greater than the away edge, and the away code
otherwise — ties break to the away team. -/
theorem C9_advantage_is_strict_home_edge
    (homeTeam awayTeam : V2.TeamStats) (scores : V2.Scores)
    (f : Factor) (hf : f ∈ V2.buildKeyFactors homeTeam awayTeam scores) :
    f.advantage =
      if f.awayEdge < f.homeEdge then homeTeam.code else awayTeam.code := by
  simp only [V2.buildKeyFactors, List.mem_cons, List.not_mem_nil,
    or_false] at hf
  rcases hf with rfl | rfl | rfl | rfl | rfl | rfl <;> rfl

/-- C9, witness: the recent-form row of a concrete breakdown records the
home code since its home edge 1 strictly exceeds its away edge 0. -/
theorem C9_advantage_witness :
    (({ name := "Recent Form (Last 5)", homeEdge := (1 : ℚ),
        awayEdge := 0, weight := 0.30, advantage := "HOM" } : Factor)
      ).advantage =
      if (0 : ℚ) < 1 then htC9.code else awC9.code :=
  C9_advantage_is_strict_home_edge htC9 awC9 scC9 _
    (by norm_num [V2.buildKeyFactors, scC9, htC9, awC9])

/-- C10: the stdDev helper (carried here as its square) returns 0 for
any window of fewer than two values, so a history with exactly one
observation reports variability 0 and the predictor assigns the highest
confidence tier. -/
theorem C10_singleton_history_high_confidence :
    (∀ l : List ℚ, l.length < 2 → V2.stdDevSq l = 0) ∧
    ∀ (player : V2.Player) (opponent : V2.Opponent) (statCode : String)
      (x : ℚ), player.statHistory statCode = [x] →
      (V2.predictPlayerStat player opponent statCode).map
        (fun r => r.confidence) = some "HIGH" := by
  constructor
  · intro l hl
    unfold V2.stdDevSq
    rw [if_pos hl]
  · intro player opponent statCode x h
    norm_num [V2.predictPlayerStat, h, V2.stdDevSq]

/-- C10, witness: a player with the single observation 7 and no opponent
data receives the HIGH confidence tier, and the empty window has zero
variability. -/
theorem C10_singleton_history_witness :
    V2.stdDevSq ([] : List ℚ) = 0 ∧
    (V2.predictPlayerStat pC10 oC10 "GOAL").map
      (fun r => r.confidence) = some "HIGH" :=
  ⟨C10_singleton_history_high_confidence.1 [] (by norm_num),
    C10_singleton_history_high_confidence.2 pC10 oC10 "GOAL" 7 rfl⟩

end AFLEdge
